import Mathlib

/-!
Verification development for the Theros Data Entry IQ vitals tracker
(`src/app.py`).

The embedding models the measurement store and the summary/insight engine:

* Python/SQLite numbers are modelled as exact rationals (`ℚ`); Python `int`
  values embed via the canonical coercion.  All arithmetic in `app.py`
  (`mean`, `pct_change`, `simple_trend`, thresholds, rounding) is carried
  out on these rationals.
* the SQLite table is modelled as a list of `Measurement` records in
  insertion (rowid) order; `ORDER BY measured_at ASC` is modelled as a
  stable sort (`List.insertionSort`) under the binary text collation, and
  `date(measured_at)` as the first ten characters of the stored ISO
  timestamp (well-formed timestamps are assumed where relevant);
* `datetime.utcnow().date()` is a parameter `today : Int`, a day number in
  the proleptic Gregorian calendar (1970-01-01 is day 0); `isoformat` of a
  date is implemented by an executable civil-calendar conversion;
* JSON payload values are modelled by `JVal`; Python `float(...)`/`int(...)`
  string parsing is modelled for plain decimal forms (sign, digits,
  optional decimal point) — exponents, `inf`/`nan` and surrounding
  whitespace are outside the model;
* `str()` of a Python float is modelled by `floatRepr`, exact for
  decimally-representable rationals.
-/

open List

namespace Theros

/-! ## Binary text collation (SQLite `TEXT` comparison, memcmp order) -/

/-- Lexicographic order on character lists by code point; this is SQLite's
BINARY collation (and Python string order) for the ASCII data used here. -/
def charListLe : List Char → List Char → Bool
  | [], _ => true
  | _ :: _, [] => false
  | a :: as, b :: bs =>
    if a.toNat < b.toNat then true
    else if b.toNat < a.toNat then false
    else charListLe as bs

/-- Comparison `a <= b` of two SQLite TEXT values. -/
def sqlTextLe (a b : String) : Bool := charListLe a.data b.data

theorem charListLe_refl (l : List Char) : charListLe l l = true := by
  induction l with
  | nil => rfl
  | cons a as ih => simp [charListLe, ih]

theorem charListLe_total (a b : List Char) :
    charListLe a b = true ∨ charListLe b a = true := by
  induction a generalizing b with
  | nil => exact Or.inl rfl
  | cons x xs ih =>
    cases b with
    | nil => exact Or.inr rfl
    | cons y ys =>
      rcases Nat.lt_trichotomy x.toNat y.toNat with h | h | h
      · left; simp [charListLe, h]
      · rcases ih ys with h2 | h2
        · left; simp [charListLe, h, h2]
        · right; simp [charListLe, h.symm, h2]
      · right; simp [charListLe, h]

theorem charListLe_trans (a b c : List Char) (hab : charListLe a b = true)
    (hbc : charListLe b c = true) : charListLe a c = true := by
  induction a generalizing b c with
  | nil => rfl
  | cons x xs ih =>
    cases b with
    | nil => simp [charListLe] at hab
    | cons y ys =>
      cases c with
      | nil => simp [charListLe] at hbc
      | cons z zs =>
        simp only [charListLe] at hab hbc ⊢
        split_ifs at hab hbc ⊢ with h1 h2 h3 h4 h5 h6 <;>
          first
            | rfl
            | omega
            | (exact hab)
            | (exact hbc)
            | (exact ih ys zs hab hbc)

/-! ## Civil calendar: day number to ISO date string

Models `datetime.date.isoformat()` together with the `timedelta` day
arithmetic of `app.py` (day 0 is 1970-01-01; valid for nonnegative
epoch-day inputs, which covers every date the application handles). -/

/-- Convert an epoch day number to a `(year, month, day)` triple of the
proleptic Gregorian calendar (Howard Hinnant's civil-from-days algorithm). -/
def civilFromDays (z : Int) : Nat × Nat × Nat :=
  let days := (z + 719468).toNat
  let era := days / 146097
  let doe := days % 146097
  let yoe := (doe - doe / 1460 + doe / 36524 - doe / 146096) / 365
  let doy := doe - (365 * yoe + yoe / 4 - yoe / 100)
  let mp := (5 * doy + 2) / 153
  let d := doy - (153 * mp + 2) / 5 + 1
  let m := if mp < 10 then mp + 3 else mp - 9
  let y := yoe + era * 400
  (if m ≤ 2 then y + 1 else y, m, d)

/-- Render a natural number left-padded with zeros to width `w`. -/
def padNum (w : Nat) (n : Nat) : String :=
  String.mk (List.replicate (w - (toString n).length) '0') ++ toString n

/-- ISO `YYYY-MM-DD` rendering of an epoch day number
(`datetime.date.isoformat`). -/
def isoOfEpochDay (z : Int) : String :=
  padNum 4 (civilFromDays z).1 ++ "-" ++ padNum 2 (civilFromDays z).2.1 ++ "-" ++
    padNum 2 (civilFromDays z).2.2

/-! ## Rendering of float values (Python `str` of a float) -/

/-- Smallest exponent `k ≤ 30` such that `den` divides `10 ^ k`, if any. -/
def decExp (den : Nat) : Option Nat :=
  (List.range 31).find? (fun k => 10 ^ k % den = 0)

/-- Render `n` as exactly `e` decimal digits, left-padded with zeros. -/
def fracDigitsPad (e : Nat) (n : Nat) : String :=
  String.mk (List.replicate (e - (toString n).length) '0') ++ toString n

/-- Model of Python's `str()` of a float, exact for rationals with a finite
decimal expansion (the only values the application produces from decimal
input); integral values render with a trailing `.0` as in Python. -/
def floatRepr (q : ℚ) : String :=
  match decExp q.den with
  | some 0 => toString q.num ++ ".0"
  | some (Nat.succ k) =>
    (if q.num < 0 then "-" else "") ++
      toString (q.num.natAbs * (10 ^ (k + 1) / q.den) / 10 ^ (k + 1)) ++ "." ++
      fracDigitsPad (k + 1) (q.num.natAbs * (10 ^ (k + 1) / q.den) % 10 ^ (k + 1))
  | none => toString q.num ++ "/" ++ toString q.den

/-- Floor of a rational number (the denominator is positive, and Lean's
integer division by a positive divisor rounds toward negative infinity). -/
def ratFloor (q : ℚ) : Int := q.num / (q.den : Int)

/-- Round to the nearest integer, ties to even — Python's `round`. -/
def roundHalfEven (q : ℚ) : Int :=
  if q - (ratFloor q : ℚ) < 1 / 2 then ratFloor q
  else if (1 : ℚ) / 2 < q - (ratFloor q : ℚ) then ratFloor q + 1
  else if ratFloor q % 2 = 0 then ratFloor q else ratFloor q + 1

/-- Python's `round(x, 1)`. -/
def round1 (q : ℚ) : ℚ := (roundHalfEven (q * 10) : ℚ) / 10

/-! ## Data model: the `measurements` table -/

/-- One row of the `measurements` table.  `resting_hr` is an SQLite
INTEGER column; the remaining vitals are REAL columns. -/
structure Measurement where
  id : Nat
  measured_at : String
  resting_hr : Option Int
  hrv : Option ℚ
  respiratory_rate : Option ℚ
  body_temp : Option ℚ
  spo2 : Option ℚ
  notes : Option String
deriving DecidableEq

/-- The five tracked vital metrics. -/
inductive Metric
  | resting_hr
  | hrv
  | respiratory_rate
  | body_temp
  | spo2
deriving DecidableEq

/-- Value of a metric on a row, as a number (`resting_hr` integers embed
into the numeric tower as in Python). -/
def Measurement.metricVal (r : Measurement) : Metric → Option ℚ
  | .resting_hr => r.resting_hr.map (fun n : Int => (n : ℚ))
  | .hrv => r.hrv
  | .respiratory_rate => r.respiratory_rate
  | .body_temp => r.body_temp
  | .spo2 => r.spo2

/-! ## JSON payload values and numeric coercion (`create_measurement`) -/

/-- A JSON value as it reaches `create_measurement`'s numeric fields:
null, a string, an integer, or a float. -/
inductive JVal
  | jnull
  | jstr (s : String)
  | jint (n : Int)
  | jfloat (q : ℚ)
deriving DecidableEq

/-- Digits of a decimal numeral folded into a natural number. -/
def digitsToNat (ds : List Char) : Nat :=
  ds.foldl (fun a c => a * 10 + (c.toNat - 48)) 0

/-- Model of Python `int(s)` on a string: optional sign followed by one or
more digits; anything else raises (returns `none`).  In particular a
numeral with a decimal point is rejected, as in Python. -/
def pyInt (s : String) : Option Int :=
  match s.data with
  | '-' :: rest => if rest ≠ [] ∧ rest.all Char.isDigit then some (-(digitsToNat rest : Int)) else none
  | '+' :: rest => if rest ≠ [] ∧ rest.all Char.isDigit then some (digitsToNat rest : Int) else none
  | rest => if rest ≠ [] ∧ rest.all Char.isDigit then some (digitsToNat rest : Int) else none

/-- Split a character list at the first decimal point. -/
def splitAtDot (cs : List Char) : List Char × Option (List Char) :=
  match cs with
  | [] => ([], none)
  | '.' :: rest => ([], some rest)
  | c :: rest =>
    match splitAtDot rest with
    | (ip, fp) => (c :: ip, fp)

/-- Build the rational value of an unsigned decimal numeral `ip.fp`. -/
def decimalValue (ip fp : List Char) : ℚ :=
  mkRat (digitsToNat ip * 10 ^ fp.length + digitsToNat fp) (10 ^ fp.length)

/-- Model of Python `float(s)` on a string, for plain decimal forms:
optional sign, digits, optional decimal point (at least one digit overall).
Unparseable strings raise (returns `none`). -/
def pyFloat (s : String) : Option ℚ :=
  match s.data with
  | '-' :: rest => (pyFloatCore rest).map (fun q => -q)
  | '+' :: rest => pyFloatCore rest
  | rest => pyFloatCore rest
where
  /-- Unsigned part of the `float` grammar. -/
  pyFloatCore (cs : List Char) : Option ℚ :=
    match splitAtDot cs with
    | (ip, none) =>
      if ip ≠ [] ∧ ip.all Char.isDigit then some (decimalValue ip []) else none
    | (ip, some fp) =>
      if (ip ≠ [] ∨ fp ≠ []) ∧ ip.all Char.isDigit ∧ fp.all Char.isDigit then
        some (decimalValue ip fp)
      else none

/-- Truncation toward zero, Python's `int()` applied to a float. -/
def ratTrunc (q : ℚ) : Int := q.num.tdiv (q.den : Int)

/-- Coercion of the `resting_hr` payload field (`app.py` lines 99-103):
missing, JSON null and `""` become NULL; otherwise `int(v)` is attempted
and any failure is silently swallowed into NULL. -/
def coerce_int_field : Option JVal → Option Int
  | none => none
  | some .jnull => none
  | some (.jstr s) => if s = "" then none else pyInt s
  | some (.jint n) => some n
  | some (.jfloat q) => some (ratTrunc q)

/-- Coercion `n(key)` of a REAL payload field (`app.py` lines 96-98):
missing, JSON null, `""` and the literal string `"null"` become NULL;
otherwise `float(v)` is applied and a parse failure raises (error). -/
def coerce_real_field : Option JVal → Except Unit (Option ℚ)
  | none => .ok none
  | some .jnull => .ok none
  | some (.jstr s) =>
    if s = "" ∨ s = "null" then .ok none
    else
      match pyFloat s with
      | some q => .ok (some q)
      | none => .error ()
  | some (.jint n) => .ok (some (n : ℚ))
  | some (.jfloat q) => .ok (some q)

/-- An insert payload as it reaches `create_measurement`. -/
structure Payload where
  measured_at : Option String
  resting_hr : Option JVal
  hrv : Option JVal
  respiratory_rate : Option JVal
  body_temp : Option JVal
  spo2 : Option JVal
  notes : Option String

/-- POST `/api/measurements` (`app.py` lines 91-120).  `db` is the table in
insertion order, `now` the current UTC instant in ISO form.  The result is
the new table together with the persisted row, or an error when one of the
REAL-field coercions raises (Python would answer 500). -/
def create_measurement (db : List Measurement) (now : String) (p : Payload) :
    Except Unit (List Measurement × Measurement) :=
  let measured_at := match p.measured_at with
    | some s => if s = "" then now else s
    | none => now
  let resting_hr := coerce_int_field p.resting_hr
  match coerce_real_field p.hrv with
  | .error e => .error e
  | .ok hrv =>
    match coerce_real_field p.respiratory_rate with
    | .error e => .error e
    | .ok rr =>
      match coerce_real_field p.body_temp with
      | .error e => .error e
      | .ok bt =>
        match coerce_real_field p.spo2 with
        | .error e => .error e
        | .ok sp =>
          let m : Measurement :=
            { id := db.length + 1
              measured_at := measured_at
              resting_hr := resting_hr
              hrv := hrv
              respiratory_rate := rr
              body_temp := bt
              spo2 := sp
              notes := p.notes }
          .ok (db ++ [m], m)

/-! ## Listing measurements (`list_measurements`) -/

/-- Row order used by `ORDER BY measured_at ASC`. -/
def measLe (a b : Measurement) : Prop :=
  sqlTextLe a.measured_at b.measured_at = true

instance : DecidableRel measLe :=
  fun a b => instDecidableEqBool (sqlTextLe a.measured_at b.measured_at) true

instance : IsTotal Measurement measLe :=
  ⟨fun a b => charListLe_total a.measured_at.data b.measured_at.data⟩

instance : IsTrans Measurement measLe :=
  ⟨fun a b c => charListLe_trans a.measured_at.data b.measured_at.data c.measured_at.data⟩

/-- Model of `SELECT ... ORDER BY measured_at ASC`: a stable sort of the
rows by timestamp (equal timestamps keep insertion order). -/
def orderByMeasuredAt (l : List Measurement) : List Measurement :=
  List.insertionSort measLe l

/-- Truthiness of an optional query-string parameter (absent and `""` are
falsy in Python). -/
def truthy : Option String → Bool
  | none => false
  | some s => !(s == "")

/-- GET `/api/measurements` (`app.py` lines 123-137).  The `since`/`until`
filters compare `date(measured_at)` — the calendar-date prefix of the
timestamp — against the raw parameter text.  Note the branch structure of
the source: a lone `until` (without `since`) selects the unfiltered
branch. -/
def list_measurements (db : List Measurement) (since untl : Option String) :
    List Measurement :=
  if truthy since && truthy untl then
    orderByMeasuredAt (db.filter (fun r =>
      sqlTextLe (since.getD "") (r.measured_at.take 10) &&
        sqlTextLe (r.measured_at.take 10) (untl.getD "")))
  else if truthy since then
    orderByMeasuredAt (db.filter (fun r =>
      sqlTextLe (since.getD "") (r.measured_at.take 10)))
  else
    orderByMeasuredAt db

/-! ## Summary statistics (`mean`, `pct_change`, `simple_trend`) -/

/-- Arithmetic mean of the non-absent entries (`app.py` lines 61-63);
absent when no entry is present. -/
def mean (xs : List (Option ℚ)) : Option ℚ :=
  if (xs.filterMap id).isEmpty then none
  else some ((xs.filterMap id).sum / ((xs.filterMap id).length : ℚ))

/-- Percent change (`app.py` lines 65-71).  A `None` old value or `old == 0`
yields `None`; a `None` new value makes the subtraction raise `TypeError`,
which the bare `except` turns into `None` as well. -/
def pct_change (old new : Option ℚ) : Option ℚ :=
  match old with
  | none => none
  | some o =>
    if o = 0 then none
    else
      match new with
      | some n => some ((n - o) / |o| * 100)
      | none => none

/-- Day indices `list(range(n))` as rationals. -/
def trendXs (n : Nat) : List ℚ := (List.range n).map (fun i : Nat => (i : ℚ))

/-- Regression denominator `sum((xs[i]-x_mean)**2)` of `simple_trend`. -/
def trendDen (n : Nat) : ℚ :=
  ((trendXs n).map (fun x => (x - (trendXs n).sum / (n : ℚ)) ^ 2)).sum

/-- Regression numerator `sum((xs[i]-x_mean)*(ys[i]-y_mean))` of
`simple_trend`, with absent values read as 0. -/
def trendNum (values : List (Option ℚ)) : ℚ :=
  (List.zipWith
    (fun x y => (x - (trendXs values.length).sum / (values.length : ℚ)) *
      (y - (values.map (fun v => v.getD 0)).sum / (values.length : ℚ)))
    (trendXs values.length) (values.map (fun v => v.getD 0))).sum

/-- Least-squares slope estimate (`app.py` lines 73-88): absent when fewer
than 2 non-absent values; `0` when the denominator vanishes; otherwise the
ratio of the regression sums. -/
def simple_trend (values : List (Option ℚ)) : Option ℚ :=
  if (values.filterMap id).length < 2 then none
  else if trendDen values.length = 0 then some 0
  else some (trendNum values / trendDen values.length)

/-- Modelled from the spec: the ordinary least-squares slope of value
against zero-based day index over the full sequence, absent values read
as 0. -/
def olsSlopeSpec (values : List (Option ℚ)) : ℚ :=
  trendNum values / trendDen values.length

/-! ## The structured summary (`compute_summary`) -/

/-- Per-metric statistics block of a summary. -/
structure Stats where
  first : Option ℚ
  last : Option ℚ
  avg : Option ℚ
  change_pct : Option ℚ
  slope : Option ℚ
deriving DecidableEq

/-- Statistics of one metric series (`app.py` lines 185-192). -/
def mkStats (vals : List (Option ℚ)) : Stats :=
  let last := (vals.reverse.filterMap id).head?
  let avg := mean (vals.filter (fun v => !v.isNone))
  let first := (vals.filterMap id).head?
  { first := first
    last := last
    avg := avg
    change_pct := if first.isSome ∧ last.isSome then pct_change first last else none
    slope := simple_trend vals }

/-- Overwriting dictionary assignment `by_day[d] = it`, the dictionary
being modelled as a lookup function. -/
def dictSet (a : String → Option Measurement) (k : String) (v : Measurement) :
    String → Option Measurement :=
  fun d => if d = k then some v else a d

/-- The `by_day` dictionary build (`app.py` lines 150-153): iterate the
rows, overwriting the entry for the row's calendar day each time. -/
def byDayFold : List Measurement → (String → Option Measurement) →
    String → Option Measurement
  | [], acc => acc
  | it :: rest, acc =>
    byDayFold rest (dictSet acc (it.measured_at.take 10) it)

/-- Cutoff date `(utcnow() - timedelta(days=days-1)).date().isoformat()`. -/
def cutoffDate (today : Int) (days : Nat) : String :=
  isoOfEpochDay (today - ((days : Int) - 1))

/-- Model of the summary's row fetch (`app.py` line 144): rows whose
calendar date is at least the cutoff, in ascending `measured_at` order. -/
def queryRows (db : List Measurement) (cutoff : String) : List Measurement :=
  orderByMeasuredAt (db.filter (fun r => sqlTextLe cutoff (r.measured_at.take 10)))

/-- The window's calendar dates (`app.py` lines 156-159), ascending from
`today - (days-1)` to `today`. -/
def windowDates (today : Int) (days : Nat) : List String :=
  (List.range days).map (fun i : Nat => isoOfEpochDay (today - ((days : Int) - 1 - (i : Int))))

/-- Value of one metric in one day's slot (`app.py` lines 162-176): the
day's winning measurement's field, absent when the day has no row. -/
def daySlot (by_day : String → Option Measurement) (m : Metric) (d : String) :
    Option ℚ :=
  (by_day d).bind (fun it => it.metricVal m)

/-- Anomaly string for a feverish day (`app.py` line 200). -/
def highTempString (d : String) (t : ℚ) : String :=
  d ++ ": high temp " ++ floatRepr t ++ "°C"

/-- Anomaly string for a low-oxygen day (`app.py` line 203). -/
def lowSpO2String (d : String) (s : ℚ) : String :=
  d ++ ": low SpO₂ " ++ floatRepr s ++ "%"

/-- Anomaly flags contributed by one day (`app.py` lines 196-203):
temperature check first, then oxygen check. -/
def dayFlags (d : String) (t s : Option ℚ) : List String :=
  (match t with
   | some tv => if 38 ≤ tv then [highTempString d tv] else []
   | none => []) ++
  (match s with
   | some sv => if sv < 94 then [lowSpO2String d sv] else []
   | none => [])

/-- The structured summary returned by `compute_summary`. -/
structure Summary where
  days : Nat
  dates : List String
  series : Metric → List (Option ℚ)
  stats : Metric → Stats
  anomalies : List String

/-- Core summary computation (`app.py` lines 140-206) over the stored
table `db`, the current UTC day `today` and the window length `days`. -/
def compute_summary (db : List Measurement) (today : Int) (days : Nat) : Summary :=
  let rows := queryRows db (cutoffDate today days)
  let by_day := byDayFold rows (fun _ => none)
  let days_list := windowDates today days
  { days := days
    dates := days_list
    series := fun m => days_list.map (daySlot by_day m)
    stats := fun m => mkStats (days_list.map (daySlot by_day m))
    anomalies := days_list.flatMap (fun d =>
      dayFlags d (daySlot by_day .body_temp d) (daySlot by_day .spo2 d)) }

/-! ## Insights (`get_insights`) -/

/-- Resting-HR sentence of the deterministic narrative (`app.py` line 222). -/
def rhrSentence (c : ℚ) (avg : Option ℚ) : String :=
  "Resting HR " ++ (if 0 < c then "increased" else "decreased") ++ " by " ++
    floatRepr (round1 c) ++ "% (avg " ++
    (match avg with
     | some a => floatRepr (round1 a)
     | none => "None") ++ " bpm)."

/-- HRV sentence of the deterministic narrative (`app.py` line 228). -/
def hrvSentence (c : ℚ) (avg : Option ℚ) : String :=
  "HRV " ++ (if 0 < c then "increased" else "decreased") ++ " by " ++
    floatRepr (round1 c) ++ "% (avg " ++
    (match avg with
     | some a => floatRepr (round1 a)
     | none => "None") ++ " ms)."

/-- One guarded narrative rule (`app.py` lines 219-222 and 225-228): the
sentence fires only when `first` and `last` are present and `change_pct`
is present with magnitude at least the threshold. -/
def guardedSentence (st : Stats) (threshold : ℚ)
    (sentence : ℚ → Option ℚ → String) : List String :=
  match st.first, st.last with
  | some _, some _ =>
    (match st.change_pct with
     | some c => if threshold ≤ |c| then [sentence c st.avg] else []
     | none => [])
  | _, _ => []

/-- The `parts` list of the deterministic narrative (`app.py` lines
215-231): guarded resting-HR sentence, guarded HRV sentence, then the
anomaly sentence when any anomaly exists. -/
def insight_parts (s : Summary) : List String :=
  guardedSentence (s.stats .resting_hr) 3 rhrSentence ++
  guardedSentence (s.stats .hrv) 6 hrvSentence ++
  (if s.anomalies.isEmpty then []
   else ["Anomalies: " ++ String.intercalate "; " s.anomalies])

/-- Deterministic narrative (`app.py` line 233). -/
def deterministic_insight (s : Summary) : String :=
  if (insight_parts s).isEmpty then "No notable changes detected in the last period."
  else String.intercalate " " (insight_parts s)

/-- Response of GET `/api/insights`. -/
structure Insights where
  deterministic : String
  ai : Option String
  summary : Summary

/-- GET `/api/insights` (`app.py` lines 209-262) with the language-model
collaborator absent (`USE_OPENAI = False`), so `ai` is `none`. -/
def get_insights (db : List Measurement) (today : Int) (days : Nat) : Insights :=
  { deterministic := deterministic_insight (compute_summary db today days)
    ai := none
    summary := compute_summary db today days }

/-! ## Spec-side definitions used for refinement statements -/

/-- Modelled from the spec: a narrative rule keyed only on `change_pct`
being present and over threshold, with no separate first/last guard. -/
def specSentence (st : Stats) (threshold : ℚ)
    (sentence : ℚ → Option ℚ → String) : List String :=
  match st.change_pct with
  | some c => if threshold ≤ |c| then [sentence c st.avg] else []
  | none => []

/-- Modelled from the spec: the narrative rule set, in fixed order. -/
def specRuleParts (s : Summary) : List String :=
  specSentence (s.stats .resting_hr) 3 rhrSentence ++
  specSentence (s.stats .hrv) 6 hrvSentence ++
  (if s.anomalies.isEmpty then []
   else ["Anomalies: " ++ String.intercalate "; " s.anomalies])

/-- Modelled from the spec: the deterministic narrative as described by the
rule set, a fixed sentence when no rule fires. -/
def specNarrative (s : Summary) : String :=
  if (specRuleParts s).isEmpty then "No notable changes detected in the last period."
  else String.intercalate " " (specRuleParts s)

/-- Whether a payload value survives the REAL-field coercion without
raising: anything but a non-empty, non-`"null"` string that fails the
float parse. -/
def realCoercible : Option JVal → Bool
  | some (.jstr s) => s == "" || s == "null" || (pyFloat s).isSome
  | _ => true

/-! ## Helper lemmas -/

theorem getLast?_cons_eq_or {α : Type} (a : α) (l : List α) :
    (a :: l).getLast? = l.getLast?.or (some a) := by
  cases l with
  | nil => rfl
  | cons b l' =>
    rw [List.getLast?_cons_cons]
    cases h : (b :: l').getLast? with
    | none => simp [List.getLast?_eq_none_iff] at h
    | some x => rfl

theorem byDayFold_apply (items : List Measurement) (acc : String → Option Measurement)
    (d : String) :
    byDayFold items acc d =
      ((items.filter (fun r => decide (r.measured_at.take 10 = d))).getLast?).or (acc d) := by
  induction items generalizing acc with
  | nil => rfl
  | cons it rest ih =>
    rw [byDayFold, ih]
    by_cases h : it.measured_at.take 10 = d
    · rw [List.filter_cons_of_pos (by simpa using h), getLast?_cons_eq_or,
        Option.or_assoc]
      have hupd : dictSet acc (it.measured_at.take 10) it d = some it := by
        unfold dictSet
        rw [if_pos h.symm]
      rw [hupd]
      rfl
    · rw [List.filter_cons_of_neg (by simpa using h)]
      have hupd : dictSet acc (it.measured_at.take 10) it d = acc d := by
        unfold dictSet
        rw [if_neg (fun hdk => h hdk.symm)]
      rw [hupd]

theorem byDayFold_none (items : List Measurement) (d : String) :
    byDayFold items (fun _ => none) d =
      (items.filter (fun r => decide (r.measured_at.take 10 = d))).getLast? := by
  rw [byDayFold_apply]
  exact Option.or_none

theorem filter_timestamp_insertionSort (l : List Measurement) (t : String) :
    (List.insertionSort measLe l).filter (fun r => decide (r.measured_at = t)) =
      l.filter (fun r => decide (r.measured_at = t)) := by
  have hsub : l.filter (fun r => decide (r.measured_at = t)) <+ l := List.filter_sublist l
  have hpw : (l.filter (fun r => decide (r.measured_at = t))).Pairwise measLe := by
    apply List.pairwise_of_forall_mem_list
    intro a ha b hb
    have ha2 : a.measured_at = t := of_decide_eq_true (List.mem_filter.mp ha).2
    have hb2 : b.measured_at = t := of_decide_eq_true (List.mem_filter.mp hb).2
    show sqlTextLe a.measured_at b.measured_at = true
    rw [ha2, hb2]
    exact charListLe_refl _
  have h1 : l.filter (fun r => decide (r.measured_at = t)) <+ List.insertionSort measLe l :=
    List.sublist_insertionSort hpw hsub
  have h2 : (l.filter (fun r => decide (r.measured_at = t))).filter
      (fun r => decide (r.measured_at = t)) = l.filter (fun r => decide (r.measured_at = t)) :=
    List.filter_eq_self.mpr (fun a ha => (List.mem_filter.mp ha).2)
  have h3 := h1.filter (fun r => decide (r.measured_at = t))
  rw [h2] at h3
  have h4 : (List.insertionSort measLe l).filter (fun r => decide (r.measured_at = t)) ~
      l.filter (fun r => decide (r.measured_at = t)) :=
    (List.perm_insertionSort measLe l).filter _
  exact (h3.eq_of_length h4.length_eq.symm).symm

theorem mkStats_first (vals : List (Option ℚ)) :
    (mkStats vals).first = (vals.filterMap id).head? := rfl

theorem mkStats_last (vals : List (Option ℚ)) :
    (mkStats vals).last = (vals.filterMap id).getLast? := by
  show (vals.reverse.filterMap id).head? = _
  rw [List.filterMap_reverse, List.head?_reverse]

theorem mkStats_slope (vals : List (Option ℚ)) :
    (mkStats vals).slope = simple_trend vals := rfl

theorem mkStats_change_pct_def (vals : List (Option ℚ)) :
    (mkStats vals).change_pct =
      if (mkStats vals).first.isSome ∧ (mkStats vals).last.isSome then
        pct_change (mkStats vals).first (mkStats vals).last
      else none := rfl

theorem filterMap_id_filter_not_isNone (vals : List (Option ℚ)) :
    (vals.filter (fun v => !v.isNone)).filterMap id = vals.filterMap id := by
  induction vals with
  | nil => rfl
  | cons v rest ih => cases v <;> simp [List.filter_cons] <;> simpa using ih

theorem mkStats_avg (vals : List (Option ℚ)) :
    (mkStats vals).avg =
      if (vals.filterMap id).isEmpty then none
      else some ((vals.filterMap id).sum / ((vals.filterMap id).length : ℚ)) := by
  show mean (vals.filter (fun v => !v.isNone)) = _
  unfold mean
  rw [filterMap_id_filter_not_isNone]

theorem mkStats_first_none_iff_last (vals : List (Option ℚ)) :
    (mkStats vals).first = none ↔ (mkStats vals).last = none := by
  rw [mkStats_first, mkStats_last, List.head?_eq_none_iff, List.getLast?_eq_none_iff]

theorem mkStats_first_isSome_iff (vals : List (Option ℚ)) :
    (mkStats vals).first.isSome = true ↔ ∃ v ∈ vals, v ≠ none := by
  rw [mkStats_first, Option.isSome_iff_ne_none, ne_eq, List.head?_eq_none_iff,
    List.filterMap_eq_nil_iff]
  push_neg
  simp

theorem mkStats_avg_none_iff (vals : List (Option ℚ)) :
    (mkStats vals).avg = none ↔ ∀ v ∈ vals, v = none := by
  rw [mkStats_avg]
  by_cases he : (vals.filterMap id).isEmpty
  · simp only [he, if_true]
    have := List.filterMap_eq_nil_iff.mp (List.isEmpty_iff.mp he)
    simpa using fun v hv => this v hv
  · simp only [he, if_false]
    constructor
    · intro h; exact absurd h (by simp)
    · intro h
      exfalso
      exact he (List.isEmpty_iff.mpr (List.filterMap_eq_nil_iff.mpr (by simpa using h)))

theorem mkStats_change_pct_some (vals : List (Option ℚ)) (f l : ℚ)
    (hf : (mkStats vals).first = some f) (hl : (mkStats vals).last = some l)
    (h0 : f ≠ 0) :
    (mkStats vals).change_pct = some ((l - f) / |f| * 100) := by
  rw [mkStats_change_pct_def, hf, hl]
  simp [pct_change, h0]

theorem mkStats_change_pct_none_left (vals : List (Option ℚ))
    (hf : (mkStats vals).first = none) : (mkStats vals).change_pct = none := by
  rw [mkStats_change_pct_def, hf]
  simp

theorem mkStats_change_pct_none_right (vals : List (Option ℚ))
    (hl : (mkStats vals).last = none) : (mkStats vals).change_pct = none := by
  rw [mkStats_change_pct_def, hl]
  simp

theorem mkStats_change_pct_none_zero (vals : List (Option ℚ))
    (hf : (mkStats vals).first = some 0) : (mkStats vals).change_pct = none := by
  rw [mkStats_change_pct_def, hf]
  cases hl : (mkStats vals).last with
  | none => simp
  | some l => simp [pct_change]

theorem mkStats_change_pct_isSome (vals : List (Option ℚ)) (f l : ℚ)
    (hf : (mkStats vals).first = some f) (hl : (mkStats vals).last = some l)
    (h0 : f ≠ 0) : (mkStats vals).change_pct.isSome = true := by
  rw [mkStats_change_pct_some vals f l hf hl h0]
  rfl

theorem trendXs_length (n : Nat) : (trendXs n).length = n := by
  unfold trendXs
  rw [List.length_map, List.length_range]

theorem trendDen_ne_zero (n : Nat) (hn : 2 ≤ n) : trendDen n ≠ 0 := by
  intro h0
  unfold trendDen at h0
  have hnonneg : ∀ a ∈ (trendXs n).map (fun x => (x - (trendXs n).sum / (n : ℚ)) ^ 2), 0 ≤ a := by
    intro a ha
    obtain ⟨x, _, rfl⟩ := List.mem_map.mp ha
    exact sq_nonneg _
  have hall : ∀ a ∈ (trendXs n).map (fun x => (x - (trendXs n).sum / (n : ℚ)) ^ 2), a = 0 := by
    intro a ha
    have h1 := List.single_le_sum hnonneg a ha
    have h2 := hnonneg a ha
    rw [h0] at h1
    linarith
  have hmem : ∀ i : Nat, i < n → ((i : ℚ) - (trendXs n).sum / (n : ℚ)) ^ 2 = 0 := by
    intro i hi
    have hx : ((i : ℚ)) ∈ trendXs n := by
      unfold trendXs
      exact List.mem_map_of_mem (fun j : Nat => (j : ℚ)) (List.mem_range.mpr hi)
    exact hall _ (List.mem_map_of_mem _ hx)
  have e0 := hmem 0 (by omega)
  have e1 := hmem 1 (by omega)
  rw [pow_eq_zero_iff (by norm_num), sub_eq_zero] at e0 e1
  push_cast at e0 e1
  rw [← e0] at e1
  norm_num at e1

theorem simple_trend_of_lt_two (values : List (Option ℚ))
    (h : (values.filterMap id).length < 2) : simple_trend values = none := by
  unfold simple_trend
  rw [if_pos h]

theorem simple_trend_of_two_le (values : List (Option ℚ))
    (h : 2 ≤ (values.filterMap id).length) :
    simple_trend values = some (olsSlopeSpec values) := by
  have hn : 2 ≤ values.length := le_trans h (List.length_filterMap_le id values)
  unfold simple_trend olsSlopeSpec
  rw [if_neg (by omega), if_neg (trendDen_ne_zero values.length hn)]

theorem windowDates_length (today : Int) (days : Nat) :
    (windowDates today days).length = days := by
  unfold windowDates
  rw [List.length_map, List.length_range]

theorem compute_summary_stats_eq (db : List Measurement) (today : Int) (days : Nat)
    (m : Metric) :
    (compute_summary db today days).stats m =
      mkStats ((compute_summary db today days).series m) := rfl

theorem compute_summary_series_length (db : List Measurement) (today : Int)
    (days : Nat) (m : Metric) :
    ((compute_summary db today days).series m).length = days := by
  show ((windowDates today days).map _).length = days
  rw [List.length_map, windowDates_length]

theorem flatMap_zip3_self (l : List String) (g h : String → Option ℚ)
    (k : String → Option ℚ → Option ℚ → List String) :
    ((l.zip ((l.map g).zip (l.map h))).flatMap (fun x => k x.1 x.2.1 x.2.2)) =
      l.flatMap (fun a => k a (g a) (h a)) := by
  induction l with
  | nil => rfl
  | cons a rest ih => simp only [List.map_cons, List.zip_cons_cons, List.flatMap_cons, ih]

theorem guardedSentence_eq_spec (st : Stats) (threshold : ℚ)
    (sentence : ℚ → Option ℚ → String)
    (h1 : st.first = none → st.change_pct = none)
    (h2 : st.last = none → st.change_pct = none) :
    guardedSentence st threshold sentence = specSentence st threshold sentence := by
  unfold guardedSentence specSentence
  cases hf : st.first with
  | none => simp [h1 hf]
  | some f =>
    cases hl : st.last with
    | none => simp [h2 hl]
    | some l => rfl

theorem coerce_real_ok_of_realCoercible (v : Option JVal) (h : realCoercible v = true) :
    ∃ o, coerce_real_field v = .ok o := by
  cases v with
  | none => exact ⟨none, rfl⟩
  | some jv =>
    cases jv with
    | jnull => exact ⟨none, rfl⟩
    | jint n => exact ⟨some (n : ℚ), rfl⟩
    | jfloat q => exact ⟨some q, rfl⟩
    | jstr s =>
      by_cases h1 : s = "" ∨ s = "null"
      · exact ⟨none, by simp only [coerce_real_field]; rw [if_pos h1]⟩
      · cases hp : pyFloat s with
        | some q =>
          refine ⟨some q, ?_⟩
          simp only [coerce_real_field]
          rw [if_neg h1, hp]
        | none =>
          exfalso
          simp [realCoercible, hp] at h
          exact h1 h

theorem coerce_real_error_of_not (v : Option JVal) (h : realCoercible v = false) :
    coerce_real_field v = .error () := by
  cases v with
  | none => simp [realCoercible] at h
  | some jv =>
    cases jv with
    | jnull => simp [realCoercible] at h
    | jint n => simp [realCoercible] at h
    | jfloat q => simp [realCoercible] at h
    | jstr s =>
      simp only [realCoercible, Bool.or_eq_false_iff] at h
      obtain ⟨⟨he, hn⟩, hp⟩ := h
      have h1 : ¬(s = "" ∨ s = "null") := by
        rintro (rfl | rfl) <;> simp_all
      simp only [coerce_real_field]
      rw [if_neg h1]
      cases hpf : pyFloat s with
      | some q => rw [hpf] at hp; simp at hp
      | none => rfl


/-! ## Concrete fixtures used by witnesses and counterexamples -/

/-- Day number of 2024-01-08 (1970-01-01 is day 0). -/
def todayW : Int := 19730

/-- Day number of 2024-01-01. -/
def day20240101 : Int := 19723

/-- A measurement recorded on 2024-01-05 with HRV 100 ms. -/
def mHrv100 : Measurement :=
  { id := 1, measured_at := "2024-01-05T08:00:00", resting_hr := none, hrv := some 100,
    respiratory_rate := none, body_temp := none, spo2 := none, notes := none }

/-- A measurement recorded on 2024-01-08 with HRV 110 ms. -/
def mHrv110 : Measurement :=
  { id := 2, measured_at := "2024-01-08T08:00:00", resting_hr := none, hrv := some 110,
    respiratory_rate := none, body_temp := none, spo2 := none, notes := none }

/-- Two-row table used by several witnesses. -/
def dbHrv : List Measurement := [mHrv100, mHrv110]

/-- A measurement on 2024-01-01 whose only value is a body temperature. -/
def mTemp37 : Measurement :=
  { id := 1, measured_at := "2024-01-01T08:00:00", resting_hr := none, hrv := none,
    respiratory_rate := none, body_temp := some 37, spo2 := none, notes := none }

/-- A value-free measurement recorded on 2024-01-05. -/
def mJan5 : Measurement :=
  { id := 1, measured_at := "2024-01-05T09:30:00", resting_hr := none, hrv := none,
    respiratory_rate := none, body_temp := none, spo2 := none, notes := none }

/-- A payload whose `hrv` field holds the unparseable string `"abc"`. -/
def pBadHrv : Payload :=
  { measured_at := some "2024-01-10T00:00:00", resting_hr := none,
    hrv := some (.jstr "abc"), respiratory_rate := none, body_temp := none,
    spo2 := none, notes := none }

/-- A payload with the decimal string `"60.5"` in both `resting_hr` and
`hrv`, and the string `"null"` in `respiratory_rate`. -/
def pDecimal : Payload :=
  { measured_at := some "2024-01-10T00:00:00", resting_hr := some (.jstr "60.5"),
    hrv := some (.jstr "60.5"), respiratory_rate := some (.jstr "null"),
    body_temp := none, spo2 := none, notes := none }

/-- A payload that coerces without error in every field. -/
def pMixed : Payload :=
  { measured_at := some "2024-01-10T00:00:00", resting_hr := some (.jstr "oops"),
    hrv := some (.jint 55), respiratory_rate := none, body_temp := some .jnull,
    spo2 := some (.jstr "97.5"), notes := none }

/-! ## Claim theorems -/

/-- C1: in every computed summary, for every metric, `change_pct` equals
`(last - first) / |first| * 100` whenever the first and last non-absent
slot values are present and `first` is non-zero, and is absent when
either endpoint is absent or `first = 0`; moreover
`pct_change(100, 110) = 10` exactly, `pct_change(0, 5)` is absent, and an
absent old value gives an absent result. -/
theorem C1_change_pct (db : List Measurement) (today : Int) (days : Nat) (m : Metric) :
    (∀ f l : ℚ, ((compute_summary db today days).stats m).first = some f →
      ((compute_summary db today days).stats m).last = some l → f ≠ 0 →
      ((compute_summary db today days).stats m).change_pct =
        some ((l - f) / |f| * 100)) ∧
    (((compute_summary db today days).stats m).first = none →
      ((compute_summary db today days).stats m).change_pct = none) ∧
    (((compute_summary db today days).stats m).last = none →
      ((compute_summary db today days).stats m).change_pct = none) ∧
    (((compute_summary db today days).stats m).first = some 0 →
      ((compute_summary db today days).stats m).change_pct = none) ∧
    pct_change (some 100) (some 110) = some 10 ∧
    pct_change (some 0) (some 5) = none ∧
    (∀ v, pct_change none v = none) := by
  rw [compute_summary_stats_eq]
  refine ⟨fun f l hf hl h0 => mkStats_change_pct_some _ f l hf hl h0,
    fun h => mkStats_change_pct_none_left _ h,
    fun h => mkStats_change_pct_none_right _ h,
    fun h => mkStats_change_pct_none_zero _ h, ?_, ?_, fun v => rfl⟩
  · norm_num [pct_change]
  · simp [pct_change]

/-- C1 witness: a concrete seven-day window over two HRV readings with
first value 100 and last value 110 yields change_pct `(110-100)/|100|*100`. -/
theorem C1_change_pct_witness :
    ((compute_summary dbHrv todayW 7).stats .hrv).first = some 100 ∧
    ((compute_summary dbHrv todayW 7).stats .hrv).last = some 110 ∧
    ((compute_summary dbHrv todayW 7).stats .hrv).change_pct =
      some ((110 - 100) / |(100 : ℚ)| * 100) :=
  ⟨by decide, by decide,
    (C1_change_pct dbHrv todayW 7 .hrv).1 100 110 (by decide) (by decide) (by norm_num)⟩

/-- C2 counterexample: at `N = 1` with one present reading (so day-index
variance is zero), the slope statistic is absent, not 0 as the claim
states for that case. -/
theorem C2_slope_counterexample :
    ((compute_summary [mTemp37] day20240101 1).stats .body_temp).slope = none ∧
    ((compute_summary [mTemp37] day20240101 1).stats .body_temp).slope ≠ some 0 := by
  refine ⟨by decide, by decide⟩

/-- C2 amended: the slope is absent whenever the series has fewer than 2
non-absent values — in particular always when `N = 1` — and otherwise it
equals the ordinary least-squares slope of value against zero-based day
index with absent values treated as 0 (the zero-variance fallback of the
code is unreachable, since 2 non-absent values force a window of length at
least 2, whose day-index variance is positive). -/
theorem C2_slope_amended (db : List Measurement) (today : Int) (days : Nat) (m : Metric) :
    ((((compute_summary db today days).series m).filterMap id).length < 2 →
      ((compute_summary db today days).stats m).slope = none) ∧
    (2 ≤ (((compute_summary db today days).series m).filterMap id).length →
      ((compute_summary db today days).stats m).slope =
        some (olsSlopeSpec ((compute_summary db today days).series m))) ∧
    (days = 1 → ((compute_summary db today days).stats m).slope = none) := by
  rw [compute_summary_stats_eq]
  refine ⟨?_, ?_, ?_⟩
  · intro h
    rw [mkStats_slope]
    exact simple_trend_of_lt_two _ h
  · intro h
    rw [mkStats_slope]
    exact simple_trend_of_two_le _ h
  · intro h
    rw [mkStats_slope]
    apply simple_trend_of_lt_two
    have h1 : ((compute_summary db today days).series m).length = days :=
      compute_summary_series_length db today days m
    have h2 := List.length_filterMap_le (id : Option ℚ → Option ℚ)
      ((compute_summary db today days).series m)
    omega

/-- C2 amended witness: the seven-day HRV series with two present values
has the least-squares slope. -/
theorem C2_slope_amended_witness :
    2 ≤ (((compute_summary dbHrv todayW 7).series .hrv).filterMap id).length ∧
    ((compute_summary dbHrv todayW 7).stats .hrv).slope =
      some (olsSlopeSpec ((compute_summary dbHrv todayW 7).series .hrv)) :=
  ⟨by decide, (C2_slope_amended dbHrv todayW 7 .hrv).2.1 (by decide)⟩

/-- C3 counterexample: an unparseable string in the REAL-valued `hrv`
field makes the insert operation fail with an error (Python: `float("abc")`
raises and nothing catches it), contradicting the claim that a coercion
failure never fails the insert. -/
theorem C3_coercion_counterexample :
    create_measurement [] "2024-01-10T00:00:00" pBadHrv = Except.error () ∧
    pyFloat "abc" = none :=
  ⟨rfl, rfl⟩

/-- C3 amended: empty, null and `"null"` real-valued fields and any
`resting_hr` value coerce silently, but an unparseable non-empty,
non-`"null"` string in a REAL-valued field (`hrv`, `respiratory_rate`,
`body_temp`, `spo2`) raises, failing the insert; the insert succeeds
exactly when all four REAL-valued fields are coercible, and the
`resting_hr` value never affects success. -/
theorem C3_coercion_amended (db : List Measurement) (now : String) (p : Payload) :
    ((create_measurement db now p).toOption.isSome = true ↔
      (realCoercible p.hrv = true ∧ realCoercible p.respiratory_rate = true ∧
        realCoercible p.body_temp = true ∧ realCoercible p.spo2 = true)) ∧
    (∀ v : Option JVal,
      (create_measurement db now { p with resting_hr := v }).toOption.isSome =
        (create_measurement db now p).toOption.isSome) := by
  constructor
  · cases h1 : realCoercible p.hrv with
    | false =>
      have e1 := coerce_real_error_of_not _ h1
      simp [create_measurement, e1, h1, Except.toOption]
    | true =>
      obtain ⟨o1, e1⟩ := coerce_real_ok_of_realCoercible _ h1
      cases h2 : realCoercible p.respiratory_rate with
      | false =>
        have e2 := coerce_real_error_of_not _ h2
        simp [create_measurement, e1, e2, h1, h2, Except.toOption]
      | true =>
        obtain ⟨o2, e2⟩ := coerce_real_ok_of_realCoercible _ h2
        cases h3 : realCoercible p.body_temp with
        | false =>
          have e3 := coerce_real_error_of_not _ h3
          simp [create_measurement, e1, e2, e3, h1, h2, h3, Except.toOption]
        | true =>
          obtain ⟨o3, e3⟩ := coerce_real_ok_of_realCoercible _ h3
          cases h4 : realCoercible p.spo2 with
          | false =>
            have e4 := coerce_real_error_of_not _ h4
            simp [create_measurement, e1, e2, e3, e4, h1, h2, h3, h4, Except.toOption]
          | true =>
            obtain ⟨o4, e4⟩ := coerce_real_ok_of_realCoercible _ h4
            simp [create_measurement, e1, e2, e3, e4, h1, h2, h3, h4, Except.toOption]
  · intro v
    cases e1 : coerce_real_field p.hrv <;>
      cases e2 : coerce_real_field p.respiratory_rate <;>
        cases e3 : coerce_real_field p.body_temp <;>
          cases e4 : coerce_real_field p.spo2 <;>
            simp [create_measurement, e1, e2, e3, e4, Except.toOption]

/-- C3 amended witness: a payload whose four REAL-valued fields all
coerce (including an unparseable `resting_hr`, which is irrelevant)
inserts successfully. -/
theorem C3_coercion_amended_witness :
    (create_measurement [] "2024-01-10T00:00:00" pMixed).toOption.isSome = true :=
  (C3_coercion_amended [] "2024-01-10T00:00:00" pMixed).1.mpr
    ⟨by decide, by decide, by decide, by decide⟩

/-- C4: in every summary, each day's series slot holds the value of the
last record of that day in the query order; the query order is ascending
by `measured_at`, and records sharing one timestamp keep their insertion
order (stable sort), so among same-day rows the latest timestamp wins and
among same-timestamp ties the later-inserted row wins. -/
theorem C4_day_slot_last_wins (db : List Measurement) (today : Int) (days : Nat)
    (m : Metric) :
    ((compute_summary db today days).series m =
      (compute_summary db today days).dates.map (fun d =>
        (((queryRows db (cutoffDate today days)).filter
            (fun r => decide (r.measured_at.take 10 = d))).getLast?).bind
          (fun it => it.metricVal m))) ∧
    List.Sorted measLe (queryRows db (cutoffDate today days)) ∧
    (∀ t : String,
      (queryRows db (cutoffDate today days)).filter
          (fun r => decide (r.measured_at = t)) =
        (db.filter (fun r => sqlTextLe (cutoffDate today days) (r.measured_at.take 10))).filter
          (fun r => decide (r.measured_at = t))) := by
  refine ⟨?_, ?_, ?_⟩
  · have h : ∀ d, daySlot (byDayFold (queryRows db (cutoffDate today days)) (fun _ => none)) m d =
        (((queryRows db (cutoffDate today days)).filter
            (fun r => decide (r.measured_at.take 10 = d))).getLast?).bind
          (fun it => it.metricVal m) := by
      intro d
      unfold daySlot
      rw [byDayFold_none]
    have hfun : daySlot (byDayFold (queryRows db (cutoffDate today days)) (fun _ => none)) m =
        fun d => (((queryRows db (cutoffDate today days)).filter
            (fun r => decide (r.measured_at.take 10 = d))).getLast?).bind
          (fun it => it.metricVal m) := funext h
    show (windowDates today days).map
        (daySlot (byDayFold (queryRows db (cutoffDate today days)) (fun _ => none)) m) =
      (windowDates today days).map _
    rw [hfun]
  · exact List.sorted_insertionSort measLe _
  · intro t
    exact filter_timestamp_insertionSort _ t

/-- C5: in every summary the anomalies list is assembled day by day, in
date order, from the body-temperature and SpO2 slots of that day: the
dated high-temperature flag appears exactly when the day's temperature is
present and at least 38, before the dated low-SpO2 flag, which appears
exactly when the day's SpO2 is present and below 94; a day crossing both
thresholds contributes exactly its two flags, temperature first. -/
theorem C5_anomalies (db : List Measurement) (today : Int) (days : Nat) :
    ((compute_summary db today days).anomalies =
      ((compute_summary db today days).dates.zip
          (((compute_summary db today days).series .body_temp).zip
            ((compute_summary db today days).series .spo2))).flatMap
        (fun x => dayFlags x.1 x.2.1 x.2.2)) ∧
    (∀ d : String, ∀ t s : ℚ, 38 ≤ t → s < 94 →
      dayFlags d (some t) (some s) = [highTempString d t, lowSpO2String d s]) ∧
    (∀ d : String, ∀ t s : ℚ, t < 38 → 94 ≤ s → dayFlags d (some t) (some s) = []) ∧
    (∀ d : String, dayFlags d none none = []) := by
  refine ⟨?_, ?_, ?_, fun d => rfl⟩
  · exact (flatMap_zip3_self (windowDates today days)
      (daySlot (byDayFold (queryRows db (cutoffDate today days)) (fun _ => none)) .body_temp)
      (daySlot (byDayFold (queryRows db (cutoffDate today days)) (fun _ => none)) .spo2)
      dayFlags).symm
  · intro d t s ht hs
    simp [dayFlags, ht, hs]
  · intro d t s ht hs
    simp [dayFlags, not_le.mpr ht, not_lt.mpr hs]

/-- C5 witness: a day at 39 degrees and 90 percent SpO2 contributes
exactly the two flags, temperature first. -/
theorem C5_anomalies_witness :
    dayFlags "2024-01-03" (some 39) (some 90) =
      [highTempString "2024-01-03" 39, lowSpO2String "2024-01-03" 90] :=
  (C5_anomalies [] 0 0).2.1 "2024-01-03" 39 90 (by norm_num) (by norm_num)

/-- C6: for every stored table and window, the deterministic narrative is
exactly the spec's rule set — a resting-HR sentence exactly when that
metric's `change_pct` is present with magnitude at least 3, an HRV
sentence exactly when its `change_pct` has magnitude at least 6, an
anomalies sentence exactly when the anomalies list is non-empty, joined
by spaces, with the fixed no-notable-changes sentence when no rule
fires. -/
theorem C6_narrative (db : List Measurement) (today : Int) (days : Nat) :
    (get_insights db today days).deterministic =
      specNarrative (compute_summary db today days) := by
  have h1 : insight_parts (compute_summary db today days) =
      specRuleParts (compute_summary db today days) := by
    unfold insight_parts specRuleParts
    rw [guardedSentence_eq_spec ((compute_summary db today days).stats .resting_hr) 3
        rhrSentence (fun h => mkStats_change_pct_none_left _ h)
        (fun h => mkStats_change_pct_none_right _ h),
      guardedSentence_eq_spec ((compute_summary db today days).stats .hrv) 6
        hrvSentence (fun h => mkStats_change_pct_none_left _ h)
        (fun h => mkStats_change_pct_none_right _ h)]
  show deterministic_insight (compute_summary db today days) = _
  unfold deterministic_insight specNarrative
  rw [h1]

/-- C7 (evaluation at the failing input): with a single record dated
2024-01-05 and only `until = "2024-01-01"` supplied, the listing returns
the record even though its date exceeds the bound — the source has no
`until`-only branch and falls through to the unfiltered query. -/
theorem C7_until_only_ignored :
    list_measurements [mJan5] none (some "2024-01-01") = [mJan5] ∧
    sqlTextLe (mJan5.measured_at.take 10) "2024-01-01" = false :=
  ⟨rfl, rfl⟩

/-- C8 (evaluation at the failing input): a malformed `since` filter is
never validated; it is compared as raw text, so the request silently
succeeds with an empty list (the same store lists its record when
unfiltered) instead of being rejected. -/
theorem C8_malformed_filter_silent :
    list_measurements [mJan5] (some "not-a-date") none = [] ∧
    list_measurements [mJan5] none none = [mJan5] :=
  ⟨rfl, rfl⟩

/-- C9: in every summary over a window of at least one day, `first` is
absent iff `last` is absent, `first` exists iff some slot of the metric's
series is non-absent, `avg` is absent iff every slot is absent, and
`change_pct` is present whenever `first` and `last` are present with
`first` non-zero. -/
theorem C9_stats_invariants (db : List Measurement) (today : Int) (days : Nat)
    (m : Metric) (_hdays : 1 ≤ days) :
    (((compute_summary db today days).stats m).first = none ↔
      ((compute_summary db today days).stats m).last = none) ∧
    (((compute_summary db today days).stats m).first.isSome = true ↔
      ∃ v ∈ (compute_summary db today days).series m, v ≠ none) ∧
    (((compute_summary db today days).stats m).avg = none ↔
      ∀ v ∈ (compute_summary db today days).series m, v = none) ∧
    (∀ f l : ℚ, ((compute_summary db today days).stats m).first = some f →
      ((compute_summary db today days).stats m).last = some l → f ≠ 0 →
      ((compute_summary db today days).stats m).change_pct.isSome = true) := by
  rw [compute_summary_stats_eq]
  exact ⟨mkStats_first_none_iff_last _, mkStats_first_isSome_iff _,
    mkStats_avg_none_iff _, fun f l hf hl h0 => mkStats_change_pct_isSome _ f l hf hl h0⟩

/-- C9 witness: instantiation at a concrete table, window and metric. -/
theorem C9_stats_invariants_witness :
    (((compute_summary dbHrv todayW 7).stats .spo2).first = none ↔
      ((compute_summary dbHrv todayW 7).stats .spo2).last = none) :=
  (C9_stats_invariants dbHrv todayW 7 .spo2 (by norm_num)).1

/-- C10: any payload carrying the decimal string "60.5" in both
`resting_hr` and `hrv` and the string "null" in `respiratory_rate` (with
coercible remaining fields) persists a record with `resting_hr` absent
(strict integer parse rejects the decimal point), `hrv` equal to the
parsed 60.5, and `respiratory_rate` absent. -/
theorem C10_int_vs_real_coercion (db : List Measurement) (now : String) (p : Payload)
    (hr : p.resting_hr = some (.jstr "60.5")) (hh : p.hrv = some (.jstr "60.5"))
    (hrr : p.respiratory_rate = some (.jstr "null"))
    (hbt : realCoercible p.body_temp = true) (hsp : realCoercible p.spo2 = true) :
    (create_measurement db now p).toOption.map
        (fun x => (x.2.resting_hr, x.2.hrv, x.2.respiratory_rate)) =
      some (none, some (mkRat 605 10), none) := by
  obtain ⟨o3, e3⟩ := coerce_real_ok_of_realCoercible _ hbt
  obtain ⟨o4, e4⟩ := coerce_real_ok_of_realCoercible _ hsp
  have ehrv : coerce_real_field p.hrv = .ok (some (mkRat 605 10)) := by
    rw [hh]
    rfl
  have err : coerce_real_field p.respiratory_rate = .ok none := by
    rw [hrr]
    rfl
  have eint : coerce_int_field p.resting_hr = none := by
    rw [hr]
    rfl
  simp [create_measurement, ehrv, err, eint, e3, e4, Except.toOption]

/-- C10 witness: the concrete payload with "60.5" in both numeric styles
and "null" in a REAL-valued field. -/
theorem C10_int_vs_real_coercion_witness :
    (create_measurement [] "2024-01-10T00:00:00" pDecimal).toOption.map
        (fun x => (x.2.resting_hr, x.2.hrv, x.2.respiratory_rate)) =
      some (none, some (mkRat 605 10), none) :=
  C10_int_vs_real_coercion [] "2024-01-10T00:00:00" pDecimal rfl rfl rfl
    (by decide) (by decide)

end Theros
